import Mathlib

/-!
Verification development for the chatbot-backend repository (src/main.py).

The repository is a single FastAPI endpoint `POST /chat` that forwards the
caller message to the Gemini `generateContent` endpoint and translates the
upstream JSON envelope into either a reply object or an HTTPException
with a status code and a detail string.

We shallow-embed the handler `chat` (src/main.py lines 38-125) as a total
Lean function over:
  - `Json`: the JSON values the upstream can return (the parsed view in Python);
  - `Upstream`: the outcome of the single `requests.post` call (HTTP failure
    with a body, a transport fault raised by `requests.post` itself, or an
    HTTP success whose body may or may not parse as JSON);
  - Python dictionary/list primitives (`in`, `[...]`, `.get`, truthiness,
    `str()`/f-string rendering, `str.strip()`) modelled explicitly, with the
    exceptions they raise carried in `Except String` (the `String` is the
    `str(e)` rendering of the exception, matching the CPython messages for the
    cases the handler can hit; exact CPython wording is version dependent
    and irrelevant to the claims, which never inspect these messages).

An exception raised inside the `try` block of the handler is caught by the
`except Exception` clause and becomes HTTPException(500, "Error processing
your request: " ++ str(e)); an exception raised inside the
`except requests.exceptions.HTTPError` clause escapes the handler entirely,
which we record as `Outcome.unhandled`.
-/

namespace ChatBackend

/-- Parsed JSON values, as Python sees them after `response.json()`. -/
inductive Json where
  | null
  | bool (b : Bool)
  | num (n : Int)
  | str (s : String)
  | arr (elems : List Json)
  | obj (fields : List (String × Json))

/-- Python type name of a value, as used in CPython exception messages. -/
def pyTypeName : Json → String
  | .null => "NoneType"
  | .bool _ => "bool"
  | .num _ => "int"
  | .str _ => "str"
  | .arr _ => "list"
  | .obj _ => "dict"

/-- Dictionary key lookup (first binding wins, as in a Python dict literal
without duplicate keys; we keep a list to stay close to the wire format). -/
def lookupField : List (String × Json) → String → Option Json
  | [], _ => none
  | (k, v) :: rest, key => if k == key then some v else lookupField rest key

/-- Python truthiness (`if x:`) for the JSON value types. -/
def pyTruthy : Json → Bool
  | .null => false
  | .bool b => b
  | .num n => n != 0
  | .str s => !(s == "")
  | .arr xs => !xs.isEmpty
  | .obj fs => !fs.isEmpty

/-- Python `==` between a JSON value and a string literal: only an equal
string compares equal (no other JSON value equals a `str`). -/
def jsonEqStrB (j : Json) (s : String) : Bool :=
  match j with
  | .str t => t == s
  | _ => false

/-- Does `hay` start with `needle`? (over character lists). -/
def listStartsWith : List Char → List Char → Bool
  | _, [] => true
  | [], _ :: _ => false
  | a :: as, b :: bs => a == b && listStartsWith as bs

/-- Substring test over character lists, for the Python `in` operator on strings. -/
def listHasSub : List Char → List Char → Bool
  | [], needle => needle.isEmpty
  | a :: rest, needle => listStartsWith (a :: rest) needle || listHasSub rest needle

/-- Python `key in j`: dict key membership, list element equality, substring
on strings; a TypeError on non-iterable values. -/
def pyIn (key : String) (j : Json) : Except String Bool :=
  match j with
  | .obj fields => .ok (lookupField fields key).isSome
  | .arr xs => .ok (xs.any (fun e => jsonEqStrB e key))
  | .str s => .ok (listHasSub s.data key.data)
  | other => .error ("argument of type \x27" ++ pyTypeName other ++ "\x27 is not iterable")

/-- Python `j[key]` for a string key: dict lookup (KeyError renders as the
quoted key), TypeError on lists/strings/non-subscriptables. -/
def pyIndexKey (j : Json) (key : String) : Except String Json :=
  match j with
  | .obj fields =>
    match lookupField fields key with
    | some v => .ok v
    | none => .error ("\x27" ++ key ++ "\x27")
  | .arr _ => .error "list indices must be integers or slices, not str"
  | .str _ => .error "string indices must be integers"
  | other => .error ("\x27" ++ pyTypeName other ++ "\x27 object is not subscriptable")

/-- Python `j[i]` for a natural index: list indexing, 1-character string for
strings, KeyError on dicts (our dict keys are strings), TypeError otherwise. -/
def pyIndexNat (j : Json) (i : Nat) : Except String Json :=
  match j with
  | .arr xs =>
    match xs.get? i with
    | some v => .ok v
    | none => .error "list index out of range"
  | .str s =>
    match s.data.get? i with
    | some c => .ok (.str (String.mk [c]))
    | none => .error "string index out of range"
  | .obj _ => .error (toString i)
  | other => .error ("\x27" ++ pyTypeName other ++ "\x27 object is not subscriptable")

/-- Python `j.get(key, dflt)`: only dicts have `.get`; anything else raises
AttributeError (this is the exception that can escape the HTTPError clause of the handler). -/
def pyGet (j : Json) (key : String) (dflt : Json) : Except String Json :=
  match j with
  | .obj fields => .ok ((lookupField fields key).getD dflt)
  | other => .error ("\x27" ++ pyTypeName other ++ "\x27 object has no attribute \x27get\x27")

mutual
/-- Python `repr` of a JSON value (quote escaping inside strings is not
modelled; the claims never exercise it). -/
def pyRepr : Json → String
  | .null => "None"
  | .bool true => "True"
  | .bool false => "False"
  | .num n => toString n
  | .str s => "\x27" ++ s ++ "\x27"
  | .arr xs => "[" ++ pyReprList xs ++ "]"
  | .obj fs => "\x7b" ++ pyReprFields fs ++ "\x7d"

/-- Comma-separated reprs of list elements. -/
def pyReprList : List Json → String
  | [] => ""
  | [x] => pyRepr x
  | x :: y :: rest => pyRepr x ++ ", " ++ pyReprList (y :: rest)

/-- Comma-separated quoted-key-colon-value reprs of dict entries. -/
def pyReprFields : List (String × Json) → String
  | [] => ""
  | [(k, v)] => "\x27" ++ k ++ "\x27: " ++ pyRepr v
  | (k, v) :: f :: rest => "\x27" ++ k ++ "\x27: " ++ pyRepr v ++ ", " ++ pyReprFields (f :: rest)
end

/-- Python `str()` / f-string rendering: identity on strings, `repr` on
containers and scalars (as CPython does for dict/list/None/bool/int). -/
def pyStr : Json → String
  | .str s => s
  | j => pyRepr j

/-- Characters stripped by Python `str.strip()` (ASCII whitespace; exotic
Unicode space code points are not modelled). -/
def isPyWS (c : Char) : Bool :=
  c == ' ' || c == '\t' || c == '\n' || c == '\r' || c == '\x0b' || c == '\x0c'

/-- `str.strip()` on the character list: drop whitespace from both ends. -/
def stripChars (l : List Char) : List Char :=
  ((l.dropWhile isPyWS).reverse.dropWhile isPyWS).reverse

/-- Python `s.strip()`. -/
def pyStrip (s : String) : String :=
  String.mk (stripChars s.data)

/-- The body of one upstream HTTP response: either it parses as JSON
(`requests.Response.json()` succeeds, yielding `j`), or it does not
(`raw` is `response.text`, `decodeMsg` the `str()` of the raised
JSONDecodeError). -/
inductive UpstreamBody where
  | parsed (j : Json)
  | unparseable (raw : String) (decodeMsg : String)

/-- Outcome of the single `requests.post` call in src/main.py line 64:
a non-2xx status (so `raise_for_status` raises HTTPError, with `excText`
the `str()` of that HTTPError), a transport-level fault raised by
`requests.post` itself (ConnectionError, Timeout, ...; `excMsg` its
`str()`), or a 2xx response with a body. -/
inductive Upstream where
  | httpFailure (status : Nat) (excText : String) (body : UpstreamBody)
  | requestFault (excMsg : String)
  | httpSuccess (body : UpstreamBody)

/-- What the handler produces: the success reply dict, an
HTTPException carrying a status code and a detail string, or an exception
escaping the handler unhandled (only possible from the HTTPError clause). -/
inductive Outcome where
  | reply (text : String)
  | httpException (status : Nat) (detail : String)
  | unhandled (excMsg : String)

/-- src/main.py line 71: `"candidates" in result and result["candidates"]`. -/
def hasCandidates (result : Json) : Except String Bool :=
  match pyIn "candidates" result with
  | .error e => .error e
  | .ok false => .ok false
  | .ok true =>
    match pyIndexKey result "candidates" with
    | .error e => .error e
    | .ok cands => .ok (pyTruthy cands)

/-- src/main.py line 73: `"content" in first_candidate and "parts" in
first_candidate["content"] and first_candidate["content"]["parts"]`. -/
def hasParts (firstCandidate : Json) : Except String Bool :=
  match pyIn "content" firstCandidate with
  | .error e => .error e
  | .ok false => .ok false
  | .ok true =>
    match pyIndexKey firstCandidate "content" with
    | .error e => .error e
    | .ok content =>
      match pyIn "parts" content with
      | .error e => .error e
      | .ok false => .ok false
      | .ok true =>
        match pyIndexKey content "parts" with
        | .error e => .error e
        | .ok parts => .ok (pyTruthy parts)

/-- src/main.py lines 74-80: read `parts[0].get("text", "")`; if falsy and a
`functionCall` key is present, substitute the function-call placeholder;
if falsy otherwise, substitute the no-text placeholder. -/
def initialText (part0 : Json) : Except String Json :=
  match pyGet part0 "text" (.str "") with
  | .error e => .error e
  | .ok text0 =>
    if pyTruthy text0 then .ok text0
    else
      match pyIn "functionCall" part0 with
      | .error e => .error e
      | .ok true =>
        match pyIndexKey part0 "functionCall" with
        | .error e => .error e
        | .ok fc => .ok (.str ("Received a function call: " ++ pyStr fc))
      | .ok false => .ok (.str "No text content found in the response.")

/-- src/main.py lines 82-94: read the finish reason (default "UNKNOWN"); on
"SAFETY", read the safety ratings (they are only logged) and, if the text so
far is falsy, substitute the safety-blocked placeholder. -/
def applySafety (firstCandidate : Json) (gt : Json) : Except String Json :=
  match pyGet firstCandidate "finishReason" (.str "UNKNOWN") with
  | .error e => .error e
  | .ok finishReason =>
    if jsonEqStrB finishReason "SAFETY" then
      match pyGet firstCandidate "safetyRatings" (.arr []) with
      | .error e => .error e
      | .ok _ =>
        if pyTruthy gt then .ok gt
        else .ok (.str "Response blocked due to safety settings.")
    else .ok gt

/-- src/main.py line 97: `generated_text.strip()`; AttributeError if the
accumulated value is not a string. -/
def stripReply (gt : Json) : Except String String :=
  match gt with
  | .str s => .ok (pyStrip s)
  | other => .error ("\x27" ++ pyTypeName other ++ "\x27 object has no attribute \x27strip\x27")

/-- src/main.py lines 72-99: the branch taken when `hasCandidates` holds. -/
def handleCandidateBranch (result : Json) : Except String String :=
  match pyIndexKey result "candidates" with
  | .error e => .error e
  | .ok cands =>
    match pyIndexNat cands 0 with
    | .error e => .error e
    | .ok firstCandidate =>
      match hasParts firstCandidate with
      | .error e => .error e
      | .ok false => .error "Invalid response structure from Gemini: Missing content or parts."
      | .ok true =>
        match pyIndexKey firstCandidate "content" with
        | .error e => .error e
        | .ok content =>
          match pyIndexKey content "parts" with
          | .error e => .error e
          | .ok parts =>
            match pyIndexNat parts 0 with
            | .error e => .error e
            | .ok part0 =>
              match initialText part0 with
              | .error e => .error e
              | .ok gt1 =>
                match applySafety firstCandidate gt1 with
                | .error e => .error e
                | .ok gt2 => stripReply gt2

/-- src/main.py line 100: `"promptFeedback" in result and "blockReason" in
result["promptFeedback"]`. -/
def promptFeedbackCond (result : Json) : Except String Bool :=
  match pyIn "promptFeedback" result with
  | .error e => .error e
  | .ok false => .ok false
  | .ok true =>
    match pyIndexKey result "promptFeedback" with
    | .error e => .error e
    | .ok pf => pyIn "blockReason" pf

/-- src/main.py lines 101-106: compose and raise the prompt-blocked message
(the composition itself can raise, e.g. when `promptFeedback` is a string);
every path is an exception, hence the always-`error` result. -/
def promptFeedbackRaise (result : Json) : Except String String :=
  match pyIndexKey result "promptFeedback" with
  | .error e => .error e
  | .ok pf =>
    match pyIndexKey pf "blockReason" with
    | .error e => .error e
    | .ok blockReason =>
      match pyIn "safetyRatings" pf with
      | .error e => .error e
      | .ok true =>
        match pyIndexKey pf "safetyRatings" with
        | .error e => .error e
        | .ok sr =>
          .error ("Prompt blocked due_to " ++ pyStr blockReason ++ "." ++
            " Safety Ratings: " ++ pyStr sr)
      | .ok false => .error ("Prompt blocked due_to " ++ pyStr blockReason ++ ".")

/-- src/main.py lines 71-108: parse the successfully-fetched JSON envelope.
`.ok` is the reply text; `.error` is the `str()` of the exception raised
inside the `try` block (later wrapped by the `except Exception` clause). -/
def handleEnvelope (result : Json) : Except String String :=
  match hasCandidates result with
  | .error e => .error e
  | .ok true => handleCandidateBranch result
  | .ok false =>
    match promptFeedbackCond result with
    | .error e => .error e
    | .ok true => promptFeedbackRaise result
    | .ok false => .error ("Unexpected response structure from Gemini: " ++ pyStr result)

/-- src/main.py lines 110-119, the `except requests.exceptions.HTTPError`
clause: compose the error detail; `.error` here is an AttributeError raised
inside the clause itself, which nothing catches. -/
def httpErrorDetail (excText : String) (body : UpstreamBody) : Except String String :=
  match body with
  | .unparseable raw _ => .ok ("HTTP error occurred: " ++ excText ++ " - " ++ raw)
  | .parsed errBody =>
    match pyGet errBody "error" (.obj []) with
    | .error e => .error e
    | .ok errField =>
      match pyGet errField "message" (.str (pyStr errBody)) with
      | .error e => .error e
      | .ok msg => .ok ("HTTP error occurred: " ++ excText ++ " - " ++ pyStr msg)

/-- The exact condition under which the detail extraction on src/main.py
line 115 raises (an AttributeError escaping the handler): the parsed body is
not a dict, or its error field is present and not a dict. Derived from the
`.get` chain error_body.get("error", ...).get("message", ...). -/
def errBodyCrashes (j : Json) : Bool :=
  match j with
  | .obj fields =>
    match lookupField fields "error" with
    | none => false
    | some (.obj _) => false
    | some _ => true
  | _ => true

/-- src/main.py lines 63-125: everything after the `requests.post` call. -/
def respond (up : Upstream) : Outcome :=
  match up with
  | .httpFailure status excText body =>
    match httpErrorDetail excText body with
    | .ok detail => .httpException status detail
    | .error exc => .unhandled exc
  | .requestFault excMsg =>
    .httpException 500 ("Error processing your request: " ++ excMsg)
  | .httpSuccess (.unparseable _ decodeMsg) =>
    .httpException 500 ("Error processing your request: " ++ decodeMsg)
  | .httpSuccess (.parsed envelope) =>
    match handleEnvelope envelope with
    | .ok text => .reply text
    | .error excMsg => .httpException 500 ("Error processing your request: " ++ excMsg)

/-- src/main.py lines 44-57: the request body posted upstream (the
`generationConfig` block is commented out in the source and so absent). -/
def buildPayload (message : String) : Json :=
  .obj [("contents", .arr [.obj [("parts", .arr [.obj [("text", .str message)]])]])]

/-- Observables of the single outbound call: how many `requests.post` calls
were made and, when one was made, the JSON body it sent. -/
structure NetLog where
  calls : Nat
  sentBody : Option Json

/-- src/main.py lines 38-125: the whole `chat` handler. The API-key check
(lines 40-41) precedes the `try` block and the network call; with a key
present, exactly one `requests.post` is issued with `buildPayload message`
and the rest of the handler runs on its outcome. -/
def chatRun (apiKey : Option String) (message : String) (up : Upstream) : Outcome × NetLog :=
  match apiKey with
  | none => (.httpException 500 "Google API Key not configured.", ⟨0, none⟩)
  | some _ => (respond up, ⟨1, some (buildPayload message)⟩)

/-- The client-visible outcome of the handler. -/
def chat (apiKey : Option String) (message : String) (up : Upstream) : Outcome :=
  (chatRun apiKey message up).1

/-- `sub` occurs as a contiguous substring of `hay`. -/
def strContains (hay sub : String) : Prop :=
  ∃ a b, hay = a ++ (sub ++ b)

/-! Helper lemmas about string append and the strip model. -/

lemma strDataAppend (a b : String) : (a ++ b).data = a.data ++ b.data := by
  cases a
  cases b
  rfl

lemma strAppendAssoc (a b c : String) : a ++ b ++ c = a ++ (b ++ c) := by
  cases a
  cases b
  cases c
  show String.mk _ = String.mk _
  rw [List.append_assoc]

lemma strAppendEmpty (s : String) : s ++ "" = s := by
  cases s
  show String.mk _ = String.mk _
  rw [List.append_nil]

lemma stripChars_eq_self_of_ends (a b : Char) (mid : List Char)
    (ha : isPyWS a = false) (hb : isPyWS b = false) :
    stripChars (a :: (mid ++ [b])) = a :: (mid ++ [b]) := by
  unfold stripChars
  have h1 : List.dropWhile isPyWS (a :: (mid ++ [b])) = a :: (mid ++ [b]) := by
    simp [List.dropWhile_cons, ha]
  rw [h1]
  have h2 : (a :: (mid ++ [b])).reverse = b :: (a :: mid).reverse := by
    rw [show a :: (mid ++ [b]) = (a :: mid) ++ [b] from rfl, List.reverse_append]
    simp
  rw [h2]
  have h3 : List.dropWhile isPyWS (b :: (a :: mid).reverse) = b :: (a :: mid).reverse := by
    simp [List.dropWhile_cons, hb]
  rw [h3, List.reverse_cons, List.reverse_reverse]
  rfl

lemma stripChars_all_ws (l : List Char) (h : ∀ c ∈ l, isPyWS c = true) :
    stripChars l = [] := by
  unfold stripChars
  rw [List.dropWhile_eq_nil_iff.mpr h]
  rfl

lemma pyStrip_all_ws (t : String) (h : ∀ c ∈ t.data, isPyWS c = true) :
    pyStrip t = "" := by
  unfold pyStrip
  rw [stripChars_all_ws t.data h]

/-- The fixed placeholder followed by a dict repr is its own strip: it starts
with a letter and ends with a closing brace. -/
lemma fcPlaceholderData (fs : List (String × Json)) :
    ("Received a function call: " ++ pyStr (Json.obj fs)).data
      = 'R' :: ((("eceived a function call: ").data ++
          ('\x7b' :: (pyReprFields fs).data)) ++ ['\x7d']) := by
  rw [show pyStr (Json.obj fs) = "\x7b" ++ pyReprFields fs ++ "\x7d" from rfl]
  rw [strDataAppend, strDataAppend, strDataAppend]
  simp [List.append_assoc]

lemma pyStrip_fcPlaceholder (fs : List (String × Json)) :
    pyStrip ("Received a function call: " ++ pyStr (Json.obj fs))
      = "Received a function call: " ++ pyStr (Json.obj fs) := by
  unfold pyStrip
  rw [fcPlaceholderData fs]
  rw [stripChars_eq_self_of_ends 'R' '\x7d' _ (by rfl) (by rfl)]
  rw [← fcPlaceholderData fs]

/-- On a candidate that is a dict and an accumulated text value that is
truthy, the safety step (src/main.py lines 82-94) never rewrites the text:
the override on line 94 requires a falsy text. -/
lemma applySafety_obj_truthy (fields : List (String × Json)) (gt : Json)
    (hgt : pyTruthy gt = true) :
    applySafety (.obj fields) gt = .ok gt := by
  unfold applySafety
  simp only [pyGet]
  split
  · simp [hgt]
  · rfl

lemma listStartsWith_append (n b : List Char) : listStartsWith (n ++ b) n = true := by
  induction n with
  | nil =>
    cases b with
    | nil => rfl
    | cons x xs => rfl
  | cons c cs ih => simp [listStartsWith, ih]

lemma listHasSub_nil_needle (l : List Char) : listHasSub l [] = true := by
  cases l with
  | nil => rfl
  | cons x xs => rfl

lemma listHasSub_of_parts (a n b : List Char) : listHasSub (a ++ (n ++ b)) n = true := by
  induction a with
  | nil =>
    cases n with
    | nil => exact listHasSub_nil_needle ([] ++ b)
    | cons c cs =>
      have h := listStartsWith_append (c :: cs) b
      rw [List.cons_append] at h
      simp [listHasSub, h]
  | cons x rest ih => simp [listHasSub, ih]

/-- When the executable substring check fails, the substring predicate used
in the claim statements fails too. -/
lemma not_strContains_of_hasSub_false (hay sub : String)
    (h : listHasSub hay.data sub.data = false) : ¬ strContains hay sub := by
  rintro ⟨a, b, hab⟩
  have hd : hay.data = a.data ++ (sub.data ++ b.data) := by
    rw [hab, strDataAppend, strDataAppend]
  rw [hd, listHasSub_of_parts] at h
  simp at h

/-- The HTTPError-clause extraction fails exactly on crash-shaped bodies:
whenever it raises, `errBodyCrashes` holds. -/
lemma httpErrorDetail_error_crashes (excText : String) (j : Json) (e : String)
    (h : httpErrorDetail excText (.parsed j) = .error e) : errBodyCrashes j = true := by
  cases j with
  | obj fields =>
    cases hl : lookupField fields "error" with
    | none => simp [httpErrorDetail, pyGet, hl] at h
    | some v =>
      cases v with
      | obj efs => simp [httpErrorDetail, pyGet, hl] at h
      | null => simp [errBodyCrashes, hl]
      | bool b => simp [errBodyCrashes, hl]
      | num n => simp [errBodyCrashes, hl]
      | str x => simp [errBodyCrashes, hl]
      | arr xs => simp [errBodyCrashes, hl]
  | null => rfl
  | bool b => rfl
  | num n => rfl
  | str x => rfl
  | arr xs => rfl

/-- A non-empty list is truthy. -/
lemma pyTruthy_arr_cons (x : Json) (l : List Json) : pyTruthy (.arr (x :: l)) = true := by
  rfl

/-! Claim theorems. -/

/-- C1: the spec says that on a successful envelope whose first candidate has
finishReason "SAFETY" and whose first content part produced no text, the
reply equals "Response blocked due to safety settings.". The code disagrees:
because the no-text placeholder (src/main.py line 80) is assigned before the
safety check, the text is never falsy when line 93 runs, so the safety
placeholder on line 94 is unreachable and the reply is the no-text
placeholder instead. This theorem evaluates the handler at the failing
input: candidates = [ dict with content.parts = [ empty part dict ] and
finishReason = "SAFETY" ]. -/
theorem safety_finish_without_text_returns_no_text_placeholder :
    chat (some "key") "hi" (.httpSuccess (.parsed (.obj [("candidates",
        .arr [.obj [("content", .obj [("parts", .arr [.obj []])]),
          ("finishReason", .str "SAFETY")]])])))
      = .reply "No text content found in the response." := by
  rfl

/-- C2 counterexample: the claim covers every body that is not parseable
JSON containing an error message field, including bodies that parse but
lack error.message. There the detail gets str(error_body) — the Python
repr with single quotes — not the raw response body text: a 429 whose raw
body text is \x7b"status": "fail"\x7d (double quotes, parsing to the dict
below) yields a detail containing \x7b\x27status\x27: \x27fail\x27\x7d and
not containing the raw text. -/
theorem http_failure_object_body_without_message_detail_not_raw :
    chat (some "key") "hi" (.httpFailure 429 "429 Client Error"
        (.parsed (.obj [("status", .str "fail")])))
      = .httpException 429
          "HTTP error occurred: 429 Client Error - \x7b\x27status\x27: \x27fail\x27\x7d" ∧
    ¬ strContains
        "HTTP error occurred: 429 Client Error - \x7b\x27status\x27: \x27fail\x27\x7d"
        "\x7b\x22status\x22: \x22fail\x22\x7d" := by
  constructor
  · rfl
  · exact not_strContains_of_hasSub_false _ _ (by rfl)

/-- C2 amended: for every non-success upstream HTTP outcome whose response
body is not parseable as JSON at all, the surfaced error detail falls back
to including the raw response body text (src/main.py lines 116-117), and
the status code is passed through. -/
theorem http_failure_unparseable_body_detail_contains_raw_text
    (key m : String) (status : Nat) (excText raw decodeMsg : String) :
    ∃ d, chat (some key) m (.httpFailure status excText (.unparseable raw decodeMsg))
        = .httpException status d ∧ strContains d raw := by
  refine ⟨"HTTP error occurred: " ++ excText ++ " - " ++ raw, rfl, ?_⟩
  exact ⟨"HTTP error occurred: " ++ excText ++ " - ", "", by rw [strAppendEmpty]⟩

/-- C3 counterexample: the claim says no exception escapes the handler for
any upstream outcome. It is false: when a non-success HTTP response has a
body that parses to a non-dict JSON value (first conjunct: the JSON string
"oops"), or to a dict whose error field is not itself a dict (second
conjunct: error = "boom"), the detail-extraction chain
error_body.get(...).get(...) inside the except-HTTPError clause raises an
AttributeError that nothing catches, so the handler neither returns a
reply nor raises an HTTPException. -/
theorem http_failure_nonobject_json_body_escapes_unhandled :
    chat (some "key") "hi" (.httpFailure 429 "429 Client Error" (.parsed (.str "oops")))
      = .unhandled "\x27str\x27 object has no attribute \x27get\x27" ∧
    chat (some "key") "hi" (.httpFailure 500 "500 Server Error"
        (.parsed (.obj [("error", .str "boom")])))
      = .unhandled "\x27str\x27 object has no attribute \x27get\x27" :=
  ⟨rfl, rfl⟩

/-- C3 amended: for every key, message and upstream outcome, the handler
returns a reply, or an HTTPException with status 500, or an HTTPException
passing through the status of an upstream HTTP failure; the only inputs
that can instead escape with an unhandled exception are upstream HTTP
failures whose body parses to a crash-shaped JSON value (errBodyCrashes:
a non-dict body, or a dict whose error field is present and not a dict) —
the counterexample shows both crash shapes do escape. -/
theorem chat_outcome_classification (apiKey : Option String) (m : String) (up : Upstream) :
    (∃ t, chat apiKey m up = .reply t) ∨
    (∃ d, chat apiKey m up = .httpException 500 d) ∨
    (∃ status excText body d, up = .httpFailure status excText body ∧
        chat apiKey m up = .httpException status d) ∨
    (∃ status excText j e, up = .httpFailure status excText (.parsed j) ∧
        errBodyCrashes j = true ∧ chat apiKey m up = .unhandled e) := by
  cases apiKey with
  | none => exact Or.inr (Or.inl ⟨_, rfl⟩)
  | some k =>
    cases up with
    | httpFailure status excText body =>
      cases body with
      | parsed j =>
        rcases hd : httpErrorDetail excText (.parsed j) with e | d
        · exact Or.inr (Or.inr (Or.inr ⟨status, excText, j, e, rfl,
            httpErrorDetail_error_crashes excText j e hd,
            by simp [chat, chatRun, respond, hd]⟩))
        · exact Or.inr (Or.inr (Or.inl ⟨status, excText, _, d, rfl,
            by simp [chat, chatRun, respond, hd]⟩))
      | unparseable raw dm =>
        exact Or.inr (Or.inr (Or.inl ⟨status, excText, _, _, rfl, rfl⟩))
    | requestFault e => exact Or.inr (Or.inl ⟨_, rfl⟩)
    | httpSuccess body =>
      cases body with
      | parsed env =>
        rcases he : handleEnvelope env with e | t
        · exact Or.inr (Or.inl ⟨"Error processing your request: " ++ e,
            by simp [chat, chatRun, respond, he]⟩)
        · exact Or.inl ⟨t, by simp [chat, chatRun, respond, he]⟩
      | unparseable raw dm => exact Or.inr (Or.inl ⟨_, rfl⟩)

/-- C5 counterexample: the claim quantifies over every non-success upstream
HTTP outcome and asserts the handler fails with the upstream status code.
It is false when the body parses to a non-dict JSON value (here the empty
JSON list): the except-HTTPError clause itself raises an AttributeError
that escapes, so no HTTPException with status 418 (or any status) is
produced. -/
theorem http_failure_list_json_body_escapes_unhandled :
    chat (some "key") "hello" (.httpFailure 418 "418 Client Error" (.parsed (.arr [])))
      = .unhandled "\x27list\x27 object has no attribute \x27get\x27" := by
  rfl

/-- C5 amended: for every non-success upstream HTTP outcome whose body
parses to a JSON object whose error field is absent or itself an object
(so the src/main.py line 115 chain does not crash — errBodyCrashes is
false), the handler fails with the same status code the upstream returned;
and whenever the error object carries a string message field, that message
appears in the error detail. (Unparseable bodies also pass the status
through, see the C2 theorem; crash-shaped bodies escape unhandled, see the
counterexample.) -/
theorem http_failure_object_body_passthrough_and_message_in_detail
    (key m excText : String) (status : Nat) (fields : List (String × Json))
    (hshape : errBodyCrashes (.obj fields) = false) :
    ∃ d, chat (some key) m (.httpFailure status excText (.parsed (.obj fields)))
        = .httpException status d ∧
      (∀ eflds msgStr, lookupField fields "error" = some (.obj eflds) →
        lookupField eflds "message" = some (.str msgStr) → strContains d msgStr) := by
  cases hl : lookupField fields "error" with
  | none =>
    refine ⟨"HTTP error occurred: " ++ excText ++ " - " ++ pyStr (.obj fields), ?_, ?_⟩
    · simp [chat, chatRun, respond, httpErrorDetail, pyGet, hl, lookupField, pyStr]
    · intro eflds msgStr h1 h2
      exact absurd h1 (by simp)
  | some v =>
    cases v with
    | obj eflds =>
      cases hm : lookupField eflds "message" with
      | none =>
        refine ⟨"HTTP error occurred: " ++ excText ++ " - " ++ pyStr (.obj fields), ?_, ?_⟩
        · simp [chat, chatRun, respond, httpErrorDetail, pyGet, hl, hm, pyStr]
        · intro eflds2 msgStr h1 h2
          injection h1 with h1a
          injection h1a with h1b
          rw [← h1b, hm] at h2
          exact absurd h2 (by simp)
      | some mv =>
        refine ⟨"HTTP error occurred: " ++ excText ++ " - " ++ pyStr mv, ?_, ?_⟩
        · simp [chat, chatRun, respond, httpErrorDetail, pyGet, hl, hm]
        · intro eflds2 msgStr h1 h2
          injection h1 with h1a
          injection h1a with h1b
          rw [← h1b, hm] at h2
          injection h2 with h2a
          refine ⟨"HTTP error occurred: " ++ excText ++ " - ", "", ?_⟩
          rw [h2a, strAppendEmpty]
          rfl
    | null => simp [errBodyCrashes, hl] at hshape
    | bool b => simp [errBodyCrashes, hl] at hshape
    | num n => simp [errBodyCrashes, hl] at hshape
    | str x => simp [errBodyCrashes, hl] at hshape
    | arr xs => simp [errBodyCrashes, hl] at hshape

/-- C5 witness: the spec example, a 429 with body
error.message = "rate limited" (a non-crashing object shape). -/
theorem http_failure_object_body_passthrough_and_message_in_detail_witness :
    errBodyCrashes (.obj [("error", .obj [("message", .str "rate limited")])]) = false ∧
    ∃ d, chat (some "k") "m" (.httpFailure 429 "429 Client Error"
        (.parsed (.obj [("error", .obj [("message", .str "rate limited")])])))
        = .httpException 429 d ∧
      (∀ eflds msgStr,
        lookupField [("error", Json.obj [("message", Json.str "rate limited")])] "error"
          = some (.obj eflds) →
        lookupField eflds "message" = some (.str msgStr) → strContains d msgStr) :=
  ⟨by rfl, http_failure_object_body_passthrough_and_message_in_detail
    "k" "m" "429 Client Error" 429 [("error", .obj [("message", .str "rate limited")])]
    (by rfl)⟩

/-- C6: for every message and upstream outcome, when the configured API key
is absent the handler fails with the 500 configuration error and the
network-call counter stays at zero (the key check on src/main.py lines
40-41 precedes the requests.post call). -/
theorem missing_api_key_fails_500_without_network_call (m : String) (up : Upstream) :
    chatRun none m up
      = (.httpException 500 "Google API Key not configured.", ⟨0, none⟩) := by
  rfl

/-- C9: for every key, message and upstream outcome, the body sent to the
upstream endpoint is exactly the one-field dict
contents = [ dict with parts = [ dict with text = message ] ] — the caller
message as the sole content part, with no history, system prompt or
generation parameters (src/main.py lines 44-57). -/
theorem sent_body_is_single_text_message (key m : String) (up : Upstream) :
    (chatRun (some key) m up).2.sentBody
      = some (.obj [("contents", .arr [.obj [("parts",
          .arr [.obj [("text", .str m)]])]])]) := by
  rfl

/-- Envelope whose first candidate carries a first content part with text
`t`, allowing arbitrary extra fields and siblings at every level. -/
def textEnvelope (t : String)
    (extraPart extraContent extraCand extraEnv : List (String × Json))
    (moreParts moreCands : List Json) : Json :=
  Json.obj (("candidates", Json.arr (Json.obj (("content", Json.obj (("parts",
    Json.arr (Json.obj (("text", Json.str t) :: extraPart) :: moreParts))
      :: extraContent)) :: extraCand) :: moreCands)) :: extraEnv)

/-- C4: for every message and successful upstream envelope whose first
candidate has a first content part with non-empty text (arbitrary further
parts, candidates and extra fields allowed), the handler returns exactly
that text with leading and trailing whitespace removed. -/
theorem success_text_reply_is_trimmed_text
    (t : String) (extraPart extraContent extraCand extraEnv : List (String × Json))
    (moreParts moreCands : List Json) (key m : String) (ht : t ≠ "") :
    chat (some key) m (.httpSuccess (.parsed
        (textEnvelope t extraPart extraContent extraCand extraEnv moreParts moreCands)))
      = .reply (pyStrip t) := by
  have hb : (t == "") = false := beq_false_of_ne ht
  have hsafety := applySafety_obj_truthy
    (("content", Json.obj (("parts",
        Json.arr (Json.obj (("text", Json.str t) :: extraPart) :: moreParts))
          :: extraContent)) :: extraCand)
    (.str t) (by simp [pyTruthy, hb])
  simp [chat, chatRun, respond, handleEnvelope, hasCandidates, handleCandidateBranch,
    hasParts, initialText, stripReply, textEnvelope, pyIn, pyIndexKey, pyIndexNat,
    pyGet, lookupField, pyTruthy, hb, hsafety]

/-- C4 witness: the spec example, upstream text "  Hello there!  " gives
reply "Hello there!". -/
theorem success_text_reply_is_trimmed_text_witness :
    ("  Hello there!  " : String) ≠ "" ∧
    chat (some "k") "msg" (.httpSuccess (.parsed
        (textEnvelope "  Hello there!  " [] [] [] [] [] [])))
      = .reply "Hello there!" := by
  constructor
  · decide
  · have h := success_text_reply_is_trimmed_text "  Hello there!  " [] [] [] [] [] []
      "k" "msg" (by decide)
    rw [h]
    rfl

/-- C7: for every successful upstream envelope with no candidates whose
promptFeedback carries a blockReason (with arbitrary further fields, so
safetyRatings may be present or absent), the handler fails with a 500
error whose detail contains the block reason, and whenever safetyRatings
is present its rendering appears in the detail too (src/main.py lines
100-106 and 120-125). -/
theorem prompt_feedback_block_fails_500_detail_contains_reason
    (key m br : String) (srFields : List (String × Json)) :
    ∃ d, chat (some key) m (.httpSuccess (.parsed (.obj [("promptFeedback",
        .obj (("blockReason", .str br) :: srFields))])))
        = .httpException 500 d ∧ strContains d br ∧
      (∀ sr, lookupField srFields "safetyRatings" = some sr → strContains d (pyStr sr)) := by
  cases hsr : lookupField srFields "safetyRatings" with
  | none =>
    refine ⟨"Error processing your request: " ++
      ("Prompt blocked due_to " ++ br ++ "."), ?_, ?_, ?_⟩
    · simp [chat, chatRun, respond, handleEnvelope, hasCandidates, promptFeedbackCond,
        promptFeedbackRaise, pyIn, pyIndexKey, lookupField, hsr, pyStr]
    · exact ⟨"Error processing your request: " ++ "Prompt blocked due_to ", ".",
        by simp only [strAppendAssoc]⟩
    · intro sr h
      exact absurd h (by simp)
  | some sr0 =>
    refine ⟨"Error processing your request: " ++ ("Prompt blocked due_to " ++ br ++ "." ++
      " Safety Ratings: " ++ pyStr sr0), ?_, ?_, ?_⟩
    · simp [chat, chatRun, respond, handleEnvelope, hasCandidates, promptFeedbackCond,
        promptFeedbackRaise, pyIn, pyIndexKey, lookupField, hsr, pyStr]
    · exact ⟨"Error processing your request: " ++ "Prompt blocked due_to ",
        "." ++ (" Safety Ratings: " ++ pyStr sr0), by simp only [strAppendAssoc]⟩
    · intro sr h
      injection h with h1
      rw [← h1]
      exact ⟨"Error processing your request: " ++ ("Prompt blocked due_to " ++ br ++ "." ++
        " Safety Ratings: "), "", by simp only [strAppendAssoc, strAppendEmpty]⟩

/-- C7 witness: blockReason "SAFETY" with safetyRatings present, the spec
example; the detail contains "SAFETY". -/
theorem prompt_feedback_block_fails_500_detail_contains_reason_witness :
    ∃ d, chat (some "k") "m" (.httpSuccess (.parsed (.obj [("promptFeedback",
        .obj (("blockReason", .str "SAFETY") :: [("safetyRatings", Json.arr [])]))])))
        = .httpException 500 d ∧ strContains d "SAFETY" ∧
      (∀ sr, lookupField [("safetyRatings", Json.arr [])] "safetyRatings" = some sr →
        strContains d (pyStr sr)) :=
  prompt_feedback_block_fails_500_detail_contains_reason "k" "m" "SAFETY"
    [("safetyRatings", .arr [])]

/-- C8: for every successful upstream envelope whose first candidate has a
first content part with falsy text (absent is modelled by any falsy value,
e.g. the empty string) and a functionCall payload (a dict), the handler
succeeds with a non-empty placeholder reply containing the phrase
"function call" and the rendered payload (src/main.py lines 75-78). -/
theorem function_call_part_returns_placeholder
    (key m : String) (tv : Json) (flds : List (String × Json))
    (htv : pyTruthy tv = false) :
    chat (some key) m (.httpSuccess (.parsed (.obj [("candidates",
        .arr [.obj [("content", .obj [("parts", .arr [.obj
          [("text", tv), ("functionCall", .obj flds)]])])]])])))
      = .reply ("Received a function call: " ++ pyStr (.obj flds)) ∧
    strContains ("Received a function call: " ++ pyStr (.obj flds)) "function call" ∧
    strContains ("Received a function call: " ++ pyStr (.obj flds)) (pyStr (.obj flds)) ∧
    ("Received a function call: " ++ pyStr (.obj flds)) ≠ "" := by
  refine ⟨?_, ?_, ?_, ?_⟩
  · simp [chat, chatRun, respond, handleEnvelope, hasCandidates, handleCandidateBranch,
      hasParts, initialText, applySafety, stripReply, pyIn, pyIndexKey, pyIndexNat,
      pyGet, lookupField, pyTruthy_arr_cons, jsonEqStrB, htv, pyStrip_fcPlaceholder]
  · refine ⟨"Received a ", ": " ++ pyStr (Json.obj flds), ?_⟩
    rw [show ("Received a function call: " : String)
        = "Received a " ++ "function call" ++ ": " from rfl]
    simp only [strAppendAssoc]
  · exact ⟨"Received a function call: ", "", by rw [strAppendEmpty]⟩
  · intro h
    have hdata := congrArg String.data h
    rw [fcPlaceholderData flds] at hdata
    simp at hdata

/-- C8 witness: empty text plus a one-field functionCall dict yields the
placeholder reply. -/
theorem function_call_part_returns_placeholder_witness :
    pyTruthy (Json.str "") = false ∧
    chat (some "k") "msg" (.httpSuccess (.parsed (.obj [("candidates",
        .arr [.obj [("content", .obj [("parts", .arr [.obj
          [("text", .str ""), ("functionCall", .obj [("name", .str "getWeather")])]])])]])])))
      = .reply ("Received a function call: " ++ pyStr (.obj [("name", .str "getWeather")])) := by
  exact ⟨by decide, (function_call_part_returns_placeholder "k" "msg" (.str "")
    [("name", .str "getWeather")] (by decide)).1⟩

/-- C10: for every successful upstream envelope whose first candidate has a
first content part whose text is non-empty but consists only of whitespace
characters, and any finish reason (including "SAFETY"), the handler
succeeds with the empty reply: the untrimmed text is truthy when the
placeholder and safety-override checks run, so neither fires, and the final
strip removes everything. -/
theorem whitespace_only_text_returns_empty_reply
    (key m t : String) (fr : Json) (h1 : t ≠ "")
    (h2 : ∀ c ∈ t.data, isPyWS c = true) :
    chat (some key) m (.httpSuccess (.parsed (.obj [("candidates",
        .arr [.obj [("content", .obj [("parts", .arr [.obj [("text", .str t)]])]),
          ("finishReason", fr)]])])))
      = .reply "" := by
  have hb : (t == "") = false := beq_false_of_ne h1
  have hsafety := applySafety_obj_truthy
    [("content", Json.obj [("parts", Json.arr [Json.obj [("text", Json.str t)]])]),
      ("finishReason", fr)]
    (.str t) (by simp [pyTruthy, hb])
  simp [chat, chatRun, respond, handleEnvelope, hasCandidates, handleCandidateBranch,
    hasParts, initialText, stripReply, pyIn, pyIndexKey, pyIndexNat, pyGet,
    lookupField, pyTruthy, hb, hsafety, pyStrip_all_ws t h2]

/-- C10 witness: three spaces with finishReason "SAFETY" give the empty
reply. -/
theorem whitespace_only_text_returns_empty_reply_witness :
    (("   " : String) ≠ "" ∧ ∀ c ∈ ("   " : String).data, isPyWS c = true) ∧
    chat (some "k") "m" (.httpSuccess (.parsed (.obj [("candidates",
        .arr [.obj [("content", .obj [("parts", .arr [.obj [("text", .str "   ")]])]),
          ("finishReason", .str "SAFETY")]])])))
      = .reply "" := by
  exact ⟨⟨by decide, by decide⟩,
    whitespace_only_text_returns_empty_reply "k" "m" "   " (.str "SAFETY")
      (by decide) (by decide)⟩

end ChatBackend
